import Mathlib

/-
Verification of the reservation service in jimmykartel69/microserv-platform.

The repository holds four near-duplicate revisions of one Express/Firestore
server:
  - src/api-server/server.js, first revision  (lines 1-301):   "revision A"
  - src/api-server/server.js, second revision (lines 302-539): "revision B"
  - src/unnamed/part_000: a revision whose create handler is textually
    identical to revision A but whose list handler queries on clientId
  - src/unnamed/part_001: a minimal revision with field validation only
  - src/unnamed/part_002: the README (no code)

The development below embeds the request-handling logic of these handlers:
JavaScript string comparison, truthiness and Number coercion are modelled
explicitly; Firestore is modelled as an in-memory store of reservation
records plus a service collection; the token-verified user id, the
server-assigned document id and the server timestamp are passed as
parameters.  JavaScript numbers are modelled as integers, which covers
every value the handlers and the concrete scenarios manipulate.
-/

namespace MicroServ

/-- JavaScript primitive values as they occur in request bodies. -/
inductive JsPrim where
  | undefinedV : JsPrim
  | nullV : JsPrim
  | numV : Int → JsPrim
  | strV : String → JsPrim
deriving DecidableEq

/-- JavaScript truthiness of a primitive value: undefined, null, 0 and the
empty string are falsy. -/
def truthy : JsPrim → Bool
  | .undefinedV => false
  | .nullV => false
  | .numV x => x != 0
  | .strV s => s != ""

/-- Comparison of two characters by code point, as JavaScript compares
string elements. -/
def charLtb (a b : Char) : Bool := a.toNat < b.toNat

/-- Lexicographic comparison of character lists, the order JavaScript uses
for its relational operators on strings. -/
def charListLtb : List Char → List Char → Bool
  | [], [] => false
  | [], _ :: _ => true
  | _ :: _, [] => false
  | a :: as, b :: bs =>
      charLtb a b || (a.toNat == b.toNat && charListLtb as bs)

/-- JavaScript strict-less-than on strings. -/
def strLtb (a b : String) : Bool := charListLtb a.data b.data

/-- JavaScript less-than-or-equal on strings: a <= b is the negation of
b < a under the total lexicographic order. -/
def strLeb (a b : String) : Bool := !(strLtb b a)

/-- Whitespace test used by the model of String.prototype.trim; the
handlers only ever trim plain identifiers, so the four ASCII whitespace
characters suffice. -/
def isWsChar (c : Char) : Bool :=
  c.toNat == 32 || c.toNat == 9 || c.toNat == 10 || c.toNat == 13

/-- Model of JavaScript String.prototype.trim: drop whitespace from both
ends. -/
def jsTrim (s : String) : String :=
  ⟨((s.data.dropWhile isWsChar).reverse.dropWhile isWsChar).reverse⟩

/-- Numeric value of a decimal digit character, if it is one. -/
def digitVal (c : Char) : Option Nat :=
  if 48 ≤ c.toNat ∧ c.toNat ≤ 57 then some (c.toNat - 48) else none

/-- Accumulating decimal parse of a character list; none models NaN. -/
def parseDigits : List Char → Option Nat → Option Nat
  | [], acc => acc
  | c :: cs, acc =>
      match digitVal c, acc with
      | some d, some n => parseDigits cs (some (n * 10 + d))
      | some d, none => parseDigits cs (some d)
      | none, _ => none

/-- Model of JavaScript Number() on a string: the empty string converts to
0, an optionally negated digit string to its value, anything else to NaN
(none).  Numbers are modelled as integers. -/
def jsStrToInt (s : String) : Option Int :=
  match s.data with
  | [] => some 0
  | '-' :: rest =>
      match parseDigits rest none with
      | some n => some (-(n : Int))
      | none => none
  | l =>
      match parseDigits l none with
      | some n => some (n : Int)
      | none => none

/-- Model of JavaScript Number() on a primitive value; none models NaN. -/
def jsToNumber : JsPrim → Option Int
  | .undefinedV => none
  | .nullV => some 0
  | .numV x => some x
  | .strV s => jsStrToInt s

/-- Model of the expression Number(v) || 0 used by the first server.js
create handler for totalPrice: NaN and 0 are falsy and give 0, any other
number passes through. -/
def numberOrZero (v : JsPrim) : Int :=
  match jsToNumber v with
  | none => 0
  | some x => if x != 0 then x else 0

/-- Model of the expression v || 0 used by the second server.js create
handler for totalPrice: a falsy value gives the number 0, anything else is
stored unchanged. -/
def jsOrZero (v : JsPrim) : JsPrim := if truthy v then v else .numV 0

/-- Service document as stored in the services collection; the spec data
model lists exactly these fields. -/
structure Service where
  title : String
  category : String
  price : Int
deriving DecidableEq

/-- Reservation document as stored in the reservations collection.  The
owner is recorded under the field userId by revisions A, part_000 and
part_001 and under clientId by revision B; both are modelled as optional
so that a document written by one revision can be read by another. -/
structure Reservation where
  id : String
  userId : Option String
  clientId : Option String
  serviceId : String
  providerId : String
  date : String
  startTime : String
  endTime : String
  totalPrice : JsPrim
  status : String
  createdAt : Nat
deriving DecidableEq

/-- Request body of POST /api/reservations.  The five identifier fields
are optional strings (absent models a missing body field, and JavaScript
treats the empty string as missing too); bodyUserId and bodyClientId model
caller-supplied owner fields, which no handler reads. -/
structure Request where
  serviceId : Option String
  providerId : Option String
  date : Option String
  startTime : Option String
  endTime : Option String
  totalPrice : JsPrim
  bodyUserId : Option String
  bodyClientId : Option String
deriving DecidableEq

/-- Firestore model: the reservations collection and the services
collection, the latter keyed by document id. -/
structure Store where
  reservations : List Reservation
  services : List (String × Service)
deriving DecidableEq

/-- Lookup of a service document by id, modelling
collection('services').doc(sid).get(). -/
def Store.getService (st : Store) (sid : String) : Option Service :=
  (st.services.find? (fun p => p.1 == sid)).map (fun p => p.2)

/-- Truthiness of a possibly missing string field, as tested by the
validation guards !serviceId || !providerId || ... in the handlers. -/
def fieldPresent : Option String → Bool
  | none => false
  | some s => s != ""

/-- Conjunction of the five validation guards of the create handlers of
revision A, part_000 and part_001 (the source writes the equivalent
!serviceId || !providerId || !date || !startTime || !endTime). -/
def requiredFieldsPresent (req : Request) : Bool :=
  fieldPresent req.serviceId && fieldPresent req.providerId &&
  fieldPresent req.date && fieldPresent req.startTime && fieldPresent req.endTime

/-- Overlap test of the conflict filter in revision A and part_000: the
source computes !((startTime >= reservation.endTime) || (endTime <=
reservation.startTime)) on HH:mm strings. -/
def slotOverlapb (reqStart reqEnd resStart resEnd : String) : Bool :=
  !(strLeb resEnd reqStart || strLeb reqEnd resStart)

/-- Candidates of the conflict query: reservations with the same serviceId
and date whose status is not cancelled, modelling the chained Firestore
where clauses. -/
def sameSlotCandidates (rs : List Reservation) (sid d : String) : List Reservation :=
  rs.filter (fun r => r.serviceId == sid && r.date == d && r.status != "cancelled")

/-- Conflicting reservations: the candidates whose half-open time interval
overlaps the requested one, modelling conflictQuery.docs.filter in
revision A and part_000. -/
def conflictingReservations (rs : List Reservation) (sid d sTime eTime : String) :
    List Reservation :=
  (sameSlotCandidates rs sid d).filter
    (fun r => slotOverlapb sTime eTime r.startTime r.endTime)

/-- Outcome of a create handler. -/
inductive CreateResult where
  | badRequest : CreateResult
  | serviceNotFound : CreateResult
  | conflict : CreateResult
  | created : Reservation → CreateResult
deriving DecidableEq

/-- HTTP status the handlers attach to each create outcome. -/
def CreateResult.httpStatus : CreateResult → Nat
  | .badRequest => 400
  | .serviceNotFound => 404
  | .conflict => 409
  | .created _ => 201

/-- Reservation document written by revision A and part_000: owner under
userId from the verified token, status pending, totalPrice through
Number(totalPrice) || 0, server-assigned id and timestamp. -/
def newReservationA (uid : String) (req : Request) (newId : String) (now : Nat) :
    Reservation :=
  { id := newId
    userId := some uid
    clientId := none
    serviceId := req.serviceId.getD ""
    providerId := req.providerId.getD ""
    date := req.date.getD ""
    startTime := req.startTime.getD ""
    endTime := req.endTime.getD ""
    totalPrice := .numV (numberOrZero req.totalPrice)
    status := "pending"
    createdAt := now }

/-- Create handler of revision A (src/api-server/server.js lines 178-286);
the handler of src/unnamed/part_000 (lines 254-362) is textually identical
and is embedded by this same function.  Validation of the five fields,
then the service existence check, then the conflict check, then the
insert. -/
def createA (uid : String) (req : Request) (st : Store) (newId : String) (now : Nat) :
    CreateResult × Store :=
  if !(requiredFieldsPresent req) then (.badRequest, st)
  else
    match st.getService (req.serviceId.getD "") with
    | none => (.serviceNotFound, st)
    | some _ =>
        if 0 < (conflictingReservations st.reservations (req.serviceId.getD "")
            (req.date.getD "") (req.startTime.getD "") (req.endTime.getD "")).length then
          (.conflict, st)
        else
          (.created (newReservationA uid req newId now),
            { st with reservations := st.reservations ++ [newReservationA uid req newId now] })

/-- Reservation document written by revision B: owner under clientId from
the verified token, serviceId and providerId trimmed, missing date and
times defaulted to the empty string, totalPrice through totalPrice || 0,
status pending. -/
def newReservationB (uid : String) (req : Request) (newId : String) (now : Nat) :
    Reservation :=
  { id := newId
    userId := none
    clientId := some uid
    serviceId := jsTrim (req.serviceId.getD "")
    providerId := jsTrim (req.providerId.getD "")
    date := req.date.getD ""
    startTime := req.startTime.getD ""
    endTime := req.endTime.getD ""
    totalPrice := jsOrZero req.totalPrice
    status := "pending"
    createdAt := now }

/-- Create handler of revision B (src/api-server/server.js lines 477-533):
only serviceId and providerId are validated, there is no service existence
check and no conflict check, and the record is inserted directly. -/
def createB (uid : String) (req : Request) (st : Store) (newId : String) (now : Nat) :
    CreateResult × Store :=
  if !(fieldPresent req.serviceId && fieldPresent req.providerId) then (.badRequest, st)
  else
    (.created (newReservationB uid req newId now),
      { st with reservations := st.reservations ++ [newReservationB uid req newId now] })

/-- Reservation document written by part_001: owner under userId, raw
totalPrice, status pending. -/
def newReservationC (uid : String) (req : Request) (newId : String) (now : Nat) :
    Reservation :=
  { id := newId
    userId := some uid
    clientId := none
    serviceId := req.serviceId.getD ""
    providerId := req.providerId.getD ""
    date := req.date.getD ""
    startTime := req.startTime.getD ""
    endTime := req.endTime.getD ""
    totalPrice := req.totalPrice
    status := "pending"
    createdAt := now }

/-- Create handler of src/unnamed/part_001 (lines 108-150): all five
fields are validated, but there is no service existence check and no
conflict check; the record is inserted directly. -/
def createC (uid : String) (req : Request) (st : Store) (newId : String) (now : Nat) :
    CreateResult × Store :=
  if !(requiredFieldsPresent req) then (.badRequest, st)
  else
    (.created (newReservationC uid req newId now),
      { st with reservations := st.reservations ++ [newReservationC uid req newId now] })

/-- Descending order on server-assigned creation timestamps, the order of
the Firestore clause orderBy('createdAt', 'desc'). -/
def createdDesc (a b : Reservation) : Prop := b.createdAt ≤ a.createdAt

instance : DecidableRel createdDesc := fun a b => Nat.decLe b.createdAt a.createdAt

instance : IsTotal Reservation createdDesc := ⟨fun a b => Nat.le_total b.createdAt a.createdAt⟩

instance : IsTrans Reservation createdDesc := ⟨fun _ _ _ hab hbc => Nat.le_trans hbc hab⟩

/-- Model of orderBy('createdAt', 'desc') on a query result. -/
def sortByCreatedAtDesc (rs : List Reservation) : List Reservation :=
  List.insertionSort createdDesc rs

/-- Primary query of the revision A list handler (src/api-server/server.js
lines 113-118): reservations whose userId equals the authenticated uid,
ordered by createdAt descending. -/
def listAQuery (st : Store) (uid : String) : List Reservation :=
  sortByCreatedAtDesc (st.reservations.filter (fun r => r.userId == some uid))

/-- Primary query of the revision B list handler (src/api-server/server.js
lines 396-400): reservations whose clientId equals the trimmed
authenticated uid, ordered by createdAt descending. -/
def listBQuery (st : Store) (uid : String) : List Reservation :=
  sortByCreatedAtDesc (st.reservations.filter (fun r => r.clientId == some (jsTrim uid)))

/-- Primary query of the part_000 list handler (lines 159-168):
reservations whose clientId equals the authenticated uid, optionally also
filtered by providerId, ordered by createdAt descending. -/
def listP0Query (st : Store) (uid : String) (providerFilter : Option String) :
    List Reservation :=
  sortByCreatedAtDesc (st.reservations.filter (fun r =>
    r.clientId == some uid &&
    match providerFilter with
    | some p => r.providerId == p
    | none => true))

/-- Outcome of one service-document fetch during list enrichment: the
awaited get() can throw, return a missing document, or return the
document. -/
inductive FetchOutcome where
  | fetchErr : FetchOutcome
  | notFound : FetchOutcome
  | found : Service → FetchOutcome
deriving DecidableEq

/-- Reservation as returned by a list handler: the stored document plus
the attached service data (none models the null or empty service of the
failure branches). -/
structure EnrichedReservation where
  base : Reservation
  service : Option Service
deriving DecidableEq

/-- Enrichment step of the revision A and part_000 list handlers: fetch
the service document inside try/catch; on a thrown error or a missing
document the reservation is pushed with service null, otherwise with the
document data. -/
def enrichA (fetch : String → FetchOutcome) (r : Reservation) : EnrichedReservation :=
  match fetch r.serviceId with
  | .found s => { base := r, service := some s }
  | .notFound => { base := r, service := none }
  | .fetchErr => { base := r, service := none }

/-- Enrichment step of the revision B list handler (lines 414-453):
serviceInfo starts empty, and is filled only when the trimmed serviceId is
nonempty and the fetch succeeds on an existing document; a thrown fetch
error leaves it empty. -/
def enrichB (fetch : String → FetchOutcome) (r : Reservation) : EnrichedReservation :=
  if jsTrim r.serviceId != "" then
    match fetch (jsTrim r.serviceId) with
    | .found s => { base := r, service := some s }
    | .notFound => { base := r, service := none }
    | .fetchErr => { base := r, service := none }
  else { base := r, service := none }

/-- List handler of revision A (lines 107-175): the for loop pushes one
enriched record per query result, in query order. -/
def listA (fetch : String → FetchOutcome) (st : Store) (uid : String) :
    List EnrichedReservation :=
  (listAQuery st uid).map (enrichA fetch)

/-- List handler of revision B (lines 386-474): Promise.all over
reservationsSnapshot.docs.map, which resolves to one enriched record per
query result, in query order. -/
def listB (fetch : String → FetchOutcome) (st : Store) (uid : String) :
    List EnrichedReservation :=
  (listBQuery st uid).map (enrichB fetch)

/-- List handler of part_000 (lines 142-251): the same sequential
enrichment loop as revision A over the clientId query. -/
def listP0 (fetch : String → FetchOutcome) (st : Store) (uid : String)
    (providerFilter : Option String) : List EnrichedReservation :=
  (listP0Query st uid providerFilter).map (enrichA fetch)

/-- Timeout bound of the revision B list handler, in milliseconds
(setTimeout(..., 25000) at line 393). -/
def listTimeoutMs : Nat := 25000

/-- Outcome of the awaited primary query: a snapshot or a thrown error
carrying its message. -/
inductive QueryOutcome where
  | ok : List Reservation → QueryOutcome
  | err : String → QueryOutcome
deriving DecidableEq

/-- Model of Promise.race([queryPromise, timeoutPromise]) in the revision
B list handler: if the query settles before the 25s timer fires its
outcome wins, otherwise the race rejects with the Timeout Firestore
error. -/
def raceWithTimeout (durationMs : Nat) (outcome : QueryOutcome) : QueryOutcome :=
  if durationMs < listTimeoutMs then outcome else .err "Timeout Firestore"

/-- HTTP status and success flag of a list response. -/
structure HttpResponse where
  status : Nat
  success : Bool
deriving DecidableEq

/-- Status mapping of the revision B list handler (lines 457-473): a
successful race yields 200 with success true; a rejection yields success
false with status 504 exactly when the message is Timeout Firestore and
500 otherwise. -/
def listBStatus (durationMs : Nat) (outcome : QueryOutcome) : HttpResponse :=
  match raceWithTimeout durationMs outcome with
  | .ok _ => { status := 200, success := true }
  | .err msg =>
      { status := if msg == "Timeout Firestore" then 504 else 500, success := false }

/-- Concrete service document used by the concrete scenarios. -/
def svcCleaning : Service := { title := "Cleaning", category := "home", price := 50 }

/-- Concrete stored reservation occupying svc1 on 2024-06-01 from 10:00 to
11:00, owned by u1 through the userId field (scenario 1 of the spec). -/
def resSlot1 : Reservation :=
  { id := "r0"
    userId := some "u1"
    clientId := none
    serviceId := "svc1"
    providerId := "p1"
    date := "2024-06-01"
    startTime := "10:00"
    endTime := "11:00"
    totalPrice := .numV 50
    status := "pending"
    createdAt := 1 }

/-- Concrete store holding the svc1 service document and the reservation
of scenario 1. -/
def baseStore : Store :=
  { reservations := [resSlot1], services := [("svc1", svcCleaning)] }

/-- Concrete request overlapping resSlot1 (scenario 2: 10:30 to 11:30). -/
def reqOverlap : Request :=
  { serviceId := some "svc1", providerId := some "p1", date := some "2024-06-01"
    startTime := some "10:30", endTime := some "11:30", totalPrice := .numV 60
    bodyUserId := none, bodyClientId := none }

/-- Concrete request adjacent to resSlot1 (scenario 3: 11:00 to 12:00,
touching but not overlapping). -/
def reqAdjacent : Request :=
  { serviceId := some "svc1", providerId := some "p1", date := some "2024-06-01"
    startTime := some "11:00", endTime := some "12:00", totalPrice := .numV 70
    bodyUserId := some "attacker", bodyClientId := some "attacker" }

/-- Concrete request with providerId missing (scenario 4). -/
def reqMissingProvider : Request :=
  { serviceId := some "svc1", providerId := none, date := some "2024-06-01"
    startTime := some "13:00", endTime := some "14:00", totalPrice := .numV 50
    bodyUserId := none, bodyClientId := none }

/-- Concrete request with date, startTime and endTime missing but
serviceId and providerId present. -/
def reqMissingDate : Request :=
  { serviceId := some "svc1", providerId := some "p1", date := none
    startTime := none, endTime := none, totalPrice := .numV 50
    bodyUserId := none, bodyClientId := none }

/-- Concrete request naming a serviceId absent from the services store. -/
def reqGhostService : Request :=
  { serviceId := some "ghost", providerId := some "p1", date := some "2024-06-01"
    startTime := some "13:00", endTime := some "14:00", totalPrice := .numV 50
    bodyUserId := none, bodyClientId := none }

/-- Concrete request with a negative numeric totalPrice on a free slot. -/
def reqNegativePrice : Request :=
  { serviceId := some "svc1", providerId := some "p1", date := some "2024-06-01"
    startTime := some "13:00", endTime := some "14:00", totalPrice := .numV (-50)
    bodyUserId := none, bodyClientId := none }

/-- Fetch oracle whose every service lookup throws. -/
def fetchErrAll : String → FetchOutcome := fun _ => .fetchErr

/-- Membership in the conflict filter follows from membership in the
store together with the three query conditions and the overlap test. -/
theorem mem_conflictingReservations {rs : List Reservation} {sid d sT eT : String}
    {r : Reservation} (hmem : r ∈ rs) (hsid : r.serviceId = sid) (hdate : r.date = d)
    (hstatus : r.status ≠ "cancelled")
    (hov : slotOverlapb sT eT r.startTime r.endTime = true) :
    r ∈ conflictingReservations rs sid d sT eT := by
  unfold conflictingReservations sameSlotCandidates
  refine List.mem_filter.2 ⟨List.mem_filter.2 ⟨hmem, ?_⟩, hov⟩
  simp [hsid, hdate, hstatus]

/-- Inversion of a successful revision A create: the result is exactly the
newReservationA record appended to the store. -/
theorem createA_created_inv {uid : String} {req : Request} {st : Store}
    {newId : String} {now : Nat} {r : Reservation} {st2 : Store}
    (h : createA uid req st newId now = (.created r, st2)) :
    r = newReservationA uid req newId now ∧
    st2 = { st with reservations := st.reservations ++ [r] } := by
  unfold createA at h
  split at h
  · simp at h
  · split at h
    · simp at h
    · split at h
      · simp at h
      · simp only [Prod.mk.injEq, CreateResult.created.injEq] at h
        obtain ⟨h1, h2⟩ := h
        subst h1
        exact ⟨rfl, h2.symm⟩

/-- Inversion of a successful revision B create. -/
theorem createB_created_inv {uid : String} {req : Request} {st : Store}
    {newId : String} {now : Nat} {r : Reservation} {st2 : Store}
    (h : createB uid req st newId now = (.created r, st2)) :
    r = newReservationB uid req newId now ∧
    st2 = { st with reservations := st.reservations ++ [r] } := by
  unfold createB at h
  split at h
  · simp at h
  · simp only [Prod.mk.injEq, CreateResult.created.injEq] at h
    obtain ⟨h1, h2⟩ := h
    subst h1
    exact ⟨rfl, h2.symm⟩

/-- Enrichment in revision A keeps the underlying reservation. -/
theorem enrichA_base (fetch : String → FetchOutcome) (r : Reservation) :
    (enrichA fetch r).base = r := by
  unfold enrichA
  split <;> rfl

/-- Enrichment in revision B keeps the underlying reservation. -/
theorem enrichB_base (fetch : String → FetchOutcome) (r : Reservation) :
    (enrichB fetch r).base = r := by
  unfold enrichB
  split
  · split <;> rfl
  · rfl

/-- Revision A enrichment attaches no service data when the fetch throws
or finds no document. -/
theorem enrichA_service_none {fetch : String → FetchOutcome} {r : Reservation}
    (h : fetch r.serviceId = .fetchErr ∨ fetch r.serviceId = .notFound) :
    (enrichA fetch r).service = none := by
  unfold enrichA
  rcases h with h | h <;> rw [h]

/-- Projecting the revision A list output to the stored records gives back
the primary query result. -/
theorem listA_map_base (fetch : String → FetchOutcome) (st : Store) (uid : String) :
    (listA fetch st uid).map EnrichedReservation.base = listAQuery st uid := by
  unfold listA
  rw [List.map_map]
  have hcomp : EnrichedReservation.base ∘ enrichA fetch = id :=
    funext fun r => enrichA_base fetch r
  rw [hcomp, List.map_id]

/-- Revision B enrichment attaches no service data when the fetch of the
trimmed serviceId throws or finds no document. -/
theorem enrichB_service_none {fetch : String → FetchOutcome} {r : Reservation}
    (h : fetch (jsTrim r.serviceId) = .fetchErr ∨ fetch (jsTrim r.serviceId) = .notFound) :
    (enrichB fetch r).service = none := by
  unfold enrichB
  split
  · rcases h with h | h <;> rw [h]
  · rfl

/-- Revision B enrichment attaches no service data when the trimmed
serviceId is empty (the missing-serviceId guard). -/
theorem enrichB_service_none_of_empty {fetch : String → FetchOutcome} {r : Reservation}
    (h : jsTrim r.serviceId = "") : (enrichB fetch r).service = none := by
  unfold enrichB
  split
  · next hne => exact absurd h (by simpa using hne)
  · rfl

/-- Projecting the revision B list output to the stored records gives back
the primary query result. -/
theorem listB_map_base (fetch : String → FetchOutcome) (st : Store) (uid : String) :
    (listB fetch st uid).map EnrichedReservation.base = listBQuery st uid := by
  unfold listB
  rw [List.map_map]
  have hcomp : EnrichedReservation.base ∘ enrichB fetch = id :=
    funext fun r => enrichB_base fetch r
  rw [hcomp, List.map_id]

/-- Claim C1 (amended to the revisions that perform the conflict check,
namely revision A of src/api-server/server.js and part_000): a create
request with all required fields, an existing service, and a stored
non-cancelled reservation on the same serviceId and date whose half-open
interval overlaps the requested one is answered with 409 and leaves the
reservation store unchanged. -/
theorem c1_conflict_rejected (uid : String) (req : Request) (st : Store)
    (newId : String) (now : Nat)
    (hfields : requiredFieldsPresent req = true)
    (hsvc : ∃ s, st.getService (req.serviceId.getD "") = some s)
    (hconf : ∃ r ∈ st.reservations,
        r.serviceId = req.serviceId.getD "" ∧ r.date = req.date.getD "" ∧
        r.status ≠ "cancelled" ∧
        slotOverlapb (req.startTime.getD "") (req.endTime.getD "")
          r.startTime r.endTime = true) :
    (createA uid req st newId now).1.httpStatus = 409 ∧
    (createA uid req st newId now).2 = st := by
  obtain ⟨s, hs⟩ := hsvc
  obtain ⟨r, hr, hsid, hdate, hstatus, hov⟩ := hconf
  have hmem : r ∈ conflictingReservations st.reservations (req.serviceId.getD "")
      (req.date.getD "") (req.startTime.getD "") (req.endTime.getD "") :=
    mem_conflictingReservations hr hsid hdate hstatus hov
  have hpos : 0 < (conflictingReservations st.reservations (req.serviceId.getD "")
      (req.date.getD "") (req.startTime.getD "") (req.endTime.getD "")).length :=
    List.length_pos.2 (List.ne_nil_of_mem hmem)
  simp [createA, hfields, hs, hpos, CreateResult.httpStatus]

/-- Claim C1 witness: scenario 2, the 10:30 to 11:30 request against the
stored 10:00 to 11:00 reservation is answered with 409 and changes
nothing. -/
theorem c1_conflict_rejected_witness :
    (createA "u2" reqOverlap baseStore "r1" 5).1.httpStatus = 409 ∧
    (createA "u2" reqOverlap baseStore "r1" 5).2 = baseStore :=
  c1_conflict_rejected "u2" reqOverlap baseStore "r1" 5 (by decide)
    ⟨svcCleaning, by decide⟩
    ⟨resSlot1, by decide, by decide, by decide, by decide, by decide⟩

/-- Claim C1 counterexample: the part_001 create handler performs no
conflict check.  The overlapping scenario 2 request has all required
fields, names an existing service, and overlaps a stored non-cancelled
reservation on the same serviceId and date, yet the handler answers 201
and appends the record instead of answering 409 and adding nothing. -/
theorem c1_counterexample :
    requiredFieldsPresent reqOverlap = true ∧
    baseStore.getService "svc1" = some svcCleaning ∧
    (∃ r ∈ baseStore.reservations,
        r.serviceId = "svc1" ∧ r.date = "2024-06-01" ∧ r.status ≠ "cancelled" ∧
        slotOverlapb "10:30" "11:30" r.startTime r.endTime = true) ∧
    (createC "u2" reqOverlap baseStore "r1" 5).1.httpStatus = 201 ∧
    (createC "u2" reqOverlap baseStore "r1" 5).1.httpStatus ≠ 409 ∧
    (createC "u2" reqOverlap baseStore "r1" 5).2.reservations.length =
      baseStore.reservations.length + 1 := by
  decide

/-- Claim C2: in the revision A and part_000 create handler, when every
same-service same-date non-cancelled reservation is adjacent or disjoint
to the requested interval, nothing is flagged as conflicting and the
request is answered with 201, appending exactly the one new record. -/
theorem c2_adjacent_not_conflicting (uid : String) (req : Request) (st : Store)
    (newId : String) (now : Nat) (svc : Service)
    (hfields : requiredFieldsPresent req = true)
    (hsvc : st.getService (req.serviceId.getD "") = some svc)
    (hdisj : ∀ r ∈ sameSlotCandidates st.reservations (req.serviceId.getD "")
        (req.date.getD ""),
        slotOverlapb (req.startTime.getD "") (req.endTime.getD "")
          r.startTime r.endTime = false) :
    conflictingReservations st.reservations (req.serviceId.getD "") (req.date.getD "")
      (req.startTime.getD "") (req.endTime.getD "") = [] ∧
    createA uid req st newId now =
      (.created (newReservationA uid req newId now),
        { st with reservations := st.reservations ++ [newReservationA uid req newId now] }) := by
  have hnil : conflictingReservations st.reservations (req.serviceId.getD "")
      (req.date.getD "") (req.startTime.getD "") (req.endTime.getD "") = [] := by
    unfold conflictingReservations
    exact List.filter_eq_nil_iff.2 fun r hr => by simp [hdisj r hr]
  refine ⟨hnil, ?_⟩
  simp [createA, hfields, hsvc, hnil]

/-- Claim C2 witness: scenario 3, the 11:00 to 12:00 request touching the
stored 10:00 to 11:00 reservation is created with one new record. -/
theorem c2_adjacent_not_conflicting_witness :
    conflictingReservations baseStore.reservations (reqAdjacent.serviceId.getD "")
      (reqAdjacent.date.getD "") (reqAdjacent.startTime.getD "")
      (reqAdjacent.endTime.getD "") = [] ∧
    createA "u1" reqAdjacent baseStore "r2" 6 =
      (.created (newReservationA "u1" reqAdjacent "r2" 6),
        { baseStore with
            reservations := baseStore.reservations ++ [newReservationA "u1" reqAdjacent "r2" 6] }) :=
  c2_adjacent_not_conflicting "u1" reqAdjacent baseStore "r2" 6 svcCleaning
    (by decide) (by decide) (by decide)

/-- Claim C3: every successful create through revision A stores the owner
under userId equal to the verified uid with status pending; every
successful create through revision B stores the owner under clientId equal
to the verified uid with status pending; and both handlers ignore
caller-supplied owner fields entirely: two bodies differing only in
bodyUserId and bodyClientId produce identical outcomes. -/
theorem c3_owner_from_token :
    (∀ uid req st newId now r st2,
        createA uid req st newId now = (.created r, st2) →
        r.userId = some uid ∧ r.status = "pending") ∧
    (∀ uid req st newId now r st2,
        createB uid req st newId now = (.created r, st2) →
        r.clientId = some uid ∧ r.status = "pending") ∧
    (∀ uid req st newId now bu bc,
        createA uid { req with bodyUserId := bu, bodyClientId := bc } st newId now =
          createA uid req st newId now ∧
        createB uid { req with bodyUserId := bu, bodyClientId := bc } st newId now =
          createB uid req st newId now) := by
  refine ⟨?_, ?_, ?_⟩
  · intro uid req st newId now r st2 h
    obtain ⟨h1, _⟩ := createA_created_inv h
    subst h1
    exact ⟨rfl, rfl⟩
  · intro uid req st newId now r st2 h
    obtain ⟨h1, _⟩ := createB_created_inv h
    subst h1
    exact ⟨rfl, rfl⟩
  · intro uid req st newId now bu bc
    exact ⟨rfl, rfl⟩

/-- Claim C3 witness: creating through revision A with a body claiming
owner "attacker" still stores owner u1 and status pending. -/
theorem c3_owner_from_token_witness :
    (newReservationA "u1" reqAdjacent "r2" 6).userId = some "u1" ∧
    (newReservationA "u1" reqAdjacent "r2" 6).status = "pending" :=
  c3_owner_from_token.1 "u1" reqAdjacent baseStore "r2" 6
    (newReservationA "u1" reqAdjacent "r2" 6)
    { baseStore with
        reservations := baseStore.reservations ++ [newReservationA "u1" reqAdjacent "r2" 6] }
    (by decide)

/-- Claim C4 counterexample: the revision B create handler validates only
serviceId and providerId.  The request with date, startTime and endTime
missing is answered with 201, not 400, and a record with those fields
defaulted to the empty string is appended. -/
theorem c4_counterexample :
    fieldPresent reqMissingDate.date = false ∧
    (createB "u1" reqMissingDate baseStore "rB" 8).1.httpStatus = 201 ∧
    (createB "u1" reqMissingDate baseStore "rB" 8).1.httpStatus ≠ 400 ∧
    (createB "u1" reqMissingDate baseStore "rB" 8).2.reservations.length =
      baseStore.reservations.length + 1 := by
  decide

/-- Claim C4 (amended): the create handlers of revision A, part_000 and
part_001 answer 400 and leave the store unchanged whenever any of the five
required fields is missing; the revision B handler does so only when
serviceId or providerId is missing. -/
theorem c4_missing_field_rejected :
    (∀ uid req st newId now, requiredFieldsPresent req = false →
        (createA uid req st newId now).1.httpStatus = 400 ∧
        (createA uid req st newId now).2 = st) ∧
    (∀ uid req st newId now, requiredFieldsPresent req = false →
        (createC uid req st newId now).1.httpStatus = 400 ∧
        (createC uid req st newId now).2 = st) ∧
    (∀ uid req st newId now,
        (fieldPresent req.serviceId && fieldPresent req.providerId) = false →
        (createB uid req st newId now).1.httpStatus = 400 ∧
        (createB uid req st newId now).2 = st) := by
  refine ⟨?_, ?_, ?_⟩ <;> intro uid req st newId now h <;>
    simp [createA, createB, createC, h, CreateResult.httpStatus]

/-- Claim C4 witness: scenario 4, the request with providerId missing is
answered with 400 by the revision A handler and the store is unchanged. -/
theorem c4_missing_field_rejected_witness :
    (createA "u1" reqMissingProvider baseStore "r4" 7).1.httpStatus = 400 ∧
    (createA "u1" reqMissingProvider baseStore "r4" 7).2 = baseStore :=
  c4_missing_field_rejected.1 "u1" reqMissingProvider baseStore "r4" 7 (by decide)

/-- Claim C5 counterexample: the revision B create handler performs no
service existence check.  The request naming the absent service ghost is
answered with 201, not 404, and a record is appended. -/
theorem c5_counterexample :
    baseStore.getService "ghost" = none ∧
    requiredFieldsPresent reqGhostService = true ∧
    (createB "u1" reqGhostService baseStore "rB2" 8).1.httpStatus = 201 ∧
    (createB "u1" reqGhostService baseStore "rB2" 8).1.httpStatus ≠ 404 ∧
    (createB "u1" reqGhostService baseStore "rB2" 8).2.reservations.length =
      baseStore.reservations.length + 1 := by
  decide

/-- Claim C5 (amended to the handlers that check service existence,
namely revision A and part_000): a create request with all required fields
whose serviceId has no document in the services store is answered with 404
and leaves the store unchanged. -/
theorem c5_unknown_service_rejected (uid : String) (req : Request) (st : Store)
    (newId : String) (now : Nat)
    (hfields : requiredFieldsPresent req = true)
    (hsvc : st.getService (req.serviceId.getD "") = none) :
    (createA uid req st newId now).1.httpStatus = 404 ∧
    (createA uid req st newId now).2 = st := by
  simp [createA, hfields, hsvc, CreateResult.httpStatus]

/-- Claim C5 witness: the ghost service request is answered with 404 by
the revision A handler and the store is unchanged. -/
theorem c5_unknown_service_rejected_witness :
    (createA "u1" reqGhostService baseStore "r5" 9).1.httpStatus = 404 ∧
    (createA "u1" reqGhostService baseStore "r5" 9).2 = baseStore :=
  c5_unknown_service_rejected "u1" reqGhostService baseStore "r5" 9 (by decide) (by decide)

/-- Store after the adjacent request has been created through the
part_000 create handler. -/
def storeAfterAdj : Store :=
  { baseStore with
      reservations := baseStore.reservations ++ [newReservationA "u1" reqAdjacent "r2" 6] }

/-- Claim C6: the part_000 revision stores the owner under userId (its
create handler is the revision A code) while its list handler filters on
clientId; a record created through it is persisted but never matched by a
subsequent part_000 list query for the same user, whatever the provider
filter, so the created record never appears in the list output. -/
theorem c6_created_record_invisible (uid : String) (req : Request) (st : Store)
    (newId : String) (now : Nat) (r : Reservation) (st2 : Store)
    (pf : Option String) (fetch : String → FetchOutcome)
    (h : createA uid req st newId now = (.created r, st2)) :
    r ∈ st2.reservations ∧ r ∉ listP0Query st2 uid pf ∧
    ∀ e ∈ listP0 fetch st2 uid pf, e.base ≠ r := by
  obtain ⟨h1, h2⟩ := createA_created_inv h
  have hclient : r.clientId = none := by rw [h1]; rfl
  have hmem : r ∈ st2.reservations := by simp [h2]
  have hnot : r ∉ listP0Query st2 uid pf := by
    intro hr
    unfold listP0Query sortByCreatedAtDesc at hr
    have hr2 := (List.perm_insertionSort createdDesc _).subset hr
    have hr3 := (List.mem_filter.1 hr2).2
    simp [hclient] at hr3
  refine ⟨hmem, hnot, ?_⟩
  intro e he hbase
  unfold listP0 at he
  obtain ⟨r0, hr0, heq⟩ := List.mem_map.1 he
  apply hnot
  rw [← hbase, ← heq, enrichA_base]
  exact hr0

/-- Claim C6 witness: the record created from the adjacent request is in
the part_000 store but absent from the unfiltered part_000 list query of
the same user. -/
theorem c6_created_record_invisible_witness :
    newReservationA "u1" reqAdjacent "r2" 6 ∈ storeAfterAdj.reservations ∧
    newReservationA "u1" reqAdjacent "r2" 6 ∉ listP0Query storeAfterAdj "u1" none :=
  ⟨(c6_created_record_invisible "u1" reqAdjacent baseStore "r2" 6
      (newReservationA "u1" reqAdjacent "r2" 6) storeAfterAdj none fetchErrAll
      (by decide)).1,
   (c6_created_record_invisible "u1" reqAdjacent baseStore "r2" 6
      (newReservationA "u1" reqAdjacent "r2" 6) storeAfterAdj none fetchErrAll
      (by decide)).2.1⟩

/-- Concrete stored reservation owned through the clientId field, as the
revision B create handler writes it. -/
def resClientSlot : Reservation :=
  { id := "rb1"
    userId := none
    clientId := some "u3"
    serviceId := "svc1"
    providerId := "p1"
    date := "2024-06-02"
    startTime := "09:00"
    endTime := "10:00"
    totalPrice := .numV 40
    status := "pending"
    createdAt := 2 }

/-- Concrete store holding the clientId-owned reservation, for exercising
the revision B list handler. -/
def storeClient : Store :=
  { reservations := [resClientSlot], services := [("svc1", svcCleaning)] }

/-- Claim C7: in both cited list handlers every primary query result is
returned whatever the outcome of its service fetch, and a thrown or
empty-handed fetch only nulls that record's service field.  In revision A
the record is pushed with service null on a thrown or empty fetch; in
revision B serviceInfo stays empty on a thrown or empty fetch and also
when the trimmed serviceId is empty.  Each list output is a total function
of the query result, so one bad reference never aborts the response. -/
theorem c7_enrichment_failure_tolerated (fetch : String → FetchOutcome) (st : Store)
    (uid : String) :
    (listA fetch st uid).map EnrichedReservation.base = listAQuery st uid ∧
    (∀ e ∈ listA fetch st uid,
        fetch e.base.serviceId = .fetchErr ∨ fetch e.base.serviceId = .notFound →
        e.service = none) ∧
    (listB fetch st uid).map EnrichedReservation.base = listBQuery st uid ∧
    (∀ e ∈ listB fetch st uid,
        fetch (jsTrim e.base.serviceId) = .fetchErr ∨
          fetch (jsTrim e.base.serviceId) = .notFound →
        e.service = none) ∧
    (∀ e ∈ listB fetch st uid, jsTrim e.base.serviceId = "" → e.service = none) := by
  refine ⟨listA_map_base fetch st uid, ?_, listB_map_base fetch st uid, ?_, ?_⟩
  · intro e he hf
    unfold listA at he
    obtain ⟨r0, hr0, heq⟩ := List.mem_map.1 he
    subst heq
    rw [enrichA_base] at hf
    exact enrichA_service_none hf
  · intro e he hf
    unfold listB at he
    obtain ⟨r0, hr0, heq⟩ := List.mem_map.1 he
    subst heq
    rw [enrichB_base] at hf
    exact enrichB_service_none hf
  · intro e he hempty
    unfold listB at he
    obtain ⟨r0, hr0, heq⟩ := List.mem_map.1 he
    subst heq
    rw [enrichB_base] at hempty
    exact enrichB_service_none_of_empty hempty

/-- Claim C7 witness: with every service fetch throwing, the revision A
list still returns the single reservation of u1 with a null service field,
and the revision B list still returns the single clientId reservation of
u3 with an empty service field. -/
theorem c7_enrichment_failure_tolerated_witness :
    (listA fetchErrAll baseStore "u1").map EnrichedReservation.base =
      listAQuery baseStore "u1" ∧
    ({ base := resSlot1, service := none } : EnrichedReservation).service = none ∧
    (listB fetchErrAll storeClient "u3").map EnrichedReservation.base =
      listBQuery storeClient "u3" ∧
    ({ base := resClientSlot, service := none } : EnrichedReservation).service = none :=
  ⟨(c7_enrichment_failure_tolerated fetchErrAll baseStore "u1").1,
   (c7_enrichment_failure_tolerated fetchErrAll baseStore "u1").2.1
     { base := resSlot1, service := none } (by decide) (Or.inl (by decide)),
   (c7_enrichment_failure_tolerated fetchErrAll storeClient "u3").2.2.1,
   (c7_enrichment_failure_tolerated fetchErrAll storeClient "u3").2.2.2.1
     { base := resClientSlot, service := none } (by decide) (Or.inl (by decide))⟩

/-- Claim C8: the revision A list output is the enrichment of the primary
query in unchanged order; that query consists exactly of the reservations
whose userId is the authenticated uid, sorted by createdAt descending; and
the revision B Promise.all enrichment over its clientId query preserves
its query order the same way. -/
theorem c8_order_preserved (fetch : String → FetchOutcome) (st : Store) (uid : String) :
    (listA fetch st uid).map EnrichedReservation.base = listAQuery st uid ∧
    List.Sorted createdDesc (listAQuery st uid) ∧
    (∀ r ∈ listAQuery st uid, r.userId = some uid) ∧
    (∀ r ∈ st.reservations, r.userId = some uid → r ∈ listAQuery st uid) ∧
    (listB fetch st uid).map EnrichedReservation.base = listBQuery st uid ∧
    List.Sorted createdDesc (listBQuery st uid) := by
  refine ⟨listA_map_base fetch st uid, ?_, ?_, ?_, listB_map_base fetch st uid, ?_⟩
  · exact List.sorted_insertionSort createdDesc _
  · intro r hr
    unfold listAQuery sortByCreatedAtDesc at hr
    have hr2 := (List.perm_insertionSort createdDesc _).subset hr
    have hr3 := (List.mem_filter.1 hr2).2
    simpa using hr3
  · intro r hr huid
    unfold listAQuery sortByCreatedAtDesc
    refine (List.perm_insertionSort createdDesc _).mem_iff.2 ?_
    exact List.mem_filter.2 ⟨hr, by simp [huid]⟩
  · exact List.sorted_insertionSort createdDesc _

/-- Claim C8 witness: on the concrete store the output projects to the
query, the query is sorted descending, contains resSlot1, and resSlot1
carries the authenticated uid. -/
theorem c8_order_preserved_witness :
    (listA fetchErrAll baseStore "u1").map EnrichedReservation.base =
      listAQuery baseStore "u1" ∧
    List.Sorted createdDesc (listAQuery baseStore "u1") ∧
    resSlot1.userId = some "u1" ∧
    resSlot1 ∈ listAQuery baseStore "u1" :=
  ⟨(c8_order_preserved fetchErrAll baseStore "u1").1,
   (c8_order_preserved fetchErrAll baseStore "u1").2.1,
   (c8_order_preserved fetchErrAll baseStore "u1").2.2.1 resSlot1 (by decide),
   (c8_order_preserved fetchErrAll baseStore "u1").2.2.2.1 resSlot1 (by decide) (by decide)⟩

/-- Claim C9 counterexample: revision A persists Number(totalPrice) || 0,
which passes a negative number through unchanged: the request with
totalPrice -50 on a free slot is created and the persisted totalPrice is
the negative number -50. -/
theorem c9_counterexample :
    (createA "u1" reqNegativePrice baseStore "r9" 12).1 =
      .created (newReservationA "u1" reqNegativePrice "r9" 12) ∧
    (newReservationA "u1" reqNegativePrice "r9" 12).totalPrice = .numV (-50) ∧
    ((-50 : Int) < 0) := by
  decide

/-- Claim C9 (amended: no non-negativity): every successful revision A
create persists totalPrice Number(request.totalPrice) || 0, namely the
numeric value whenever Number() yields a number and 0 whenever it yields
NaN; no sign check is performed. -/
theorem c9_total_price (uid : String) (req : Request) (st : Store)
    (newId : String) (now : Nat) (r : Reservation) (st2 : Store)
    (h : createA uid req st newId now = (.created r, st2)) :
    r.totalPrice = .numV (numberOrZero req.totalPrice) ∧
    (jsToNumber req.totalPrice = none → r.totalPrice = .numV 0) ∧
    (∀ x, jsToNumber req.totalPrice = some x → r.totalPrice = .numV x) := by
  obtain ⟨h1, _⟩ := createA_created_inv h
  subst h1
  refine ⟨rfl, ?_, ?_⟩
  · intro hnan
    simp [newReservationA, numberOrZero, hnan]
  · intro x hx
    by_cases hx0 : x = 0
    · subst hx0
      simp [newReservationA, numberOrZero, hx]
    · simp [newReservationA, numberOrZero, hx, hx0]

/-- Claim C9 witness: the adjacent request with numeric totalPrice 70 is
persisted with exactly that value. -/
theorem c9_total_price_witness :
    (newReservationA "u1" reqAdjacent "r2" 6).totalPrice =
      .numV (numberOrZero reqAdjacent.totalPrice) :=
  (c9_total_price "u1" reqAdjacent baseStore "r2" 6
    (newReservationA "u1" reqAdjacent "r2" 6)
    { baseStore with
        reservations := baseStore.reservations ++ [newReservationA "u1" reqAdjacent "r2" 6] }
    (by decide)).1

/-- Claim C10: the revision B list query is raced against a 25000 ms
timer; when the query takes at least the bound, the response is 504 with
success false, while a query failing before the bound with any other error
message yields the distinct generic 500 with success false. -/
theorem c10_timeout_distinct (durationMs : Nat) (outcome : QueryOutcome)
    (h : listTimeoutMs ≤ durationMs) :
    listBStatus durationMs outcome = { status := 504, success := false } ∧
    (∀ msg, msg ≠ "Timeout Firestore" → ∀ d2, d2 < listTimeoutMs →
        listBStatus d2 (.err msg) = { status := 500, success := false }) ∧
    listTimeoutMs = 25000 := by
  refine ⟨?_, ?_, rfl⟩
  · have hlt : ¬(durationMs < listTimeoutMs) := not_lt.2 h
    simp [listBStatus, raceWithTimeout, hlt]
  · intro msg hmsg d2 hd2
    simp [listBStatus, raceWithTimeout, hd2, hmsg]

/-- Claim C10 witness: a query still pending at 25000 ms is answered 504
with success false. -/
theorem c10_timeout_distinct_witness :
    listBStatus 25000 (.ok []) = { status := 504, success := false } :=
  (c10_timeout_distinct 25000 (.ok []) (by decide)).1

end MicroServ

